import Mathlib

/-
Verification of the rotseproc algorithm-execution and QA-classification framework.

Shallow embedding of the two source modules:
  - src/py/rotseproc/pa/paalgs.py  (pipeline algorithms, in particular the
    template-selection logic of Choose_Refstars.run_pa and the common run
    prologue shared by Find_Data, Coaddition, and the other stages)
  - src/py/rotseproc/qa/qaalgs.py  (the Count_Pixels monitoring algorithm)

Python dictionaries with a fixed set of recognized keys are embedded as
structures with Option fields (a missing key is none); numeric values are
embedded as rationals; fallible paths (sys.exit, KeyError, IndexError,
ValueError) are embedded as Except / Option failures.
-/

/-! ## Python string and integer primitives -/

/-- Embeds the Python slice s[a:b] for 0 ≤ a ≤ b on a string. -/
def pySlice (s : String) (a b : Nat) : String :=
  String.mk ((s.data.drop a).take (b - a))

/-- Decimal value of a list of digit characters. -/
def pyDigitsVal (cs : List Char) : Nat :=
  cs.foldl (fun acc c => 10 * acc + (c.toNat - 48)) 0

/-- Embeds the Python builtin int applied to a string: an optional sign followed
by at least one decimal digit parses to an integer, anything else raises
ValueError (embedded as none).  Surrounding whitespace handling is omitted:
the identifiers in play are bare file names. -/
def pyInt? (s : String) : Option Int :=
  match s.data with
  | '-' :: ds => if ds ≠ [] ∧ ds.all (·.isDigit) then some (-(pyDigitsVal ds : Int)) else none
  | '+' :: ds => if ds ≠ [] ∧ ds.all (·.isDigit) then some ((pyDigitsVal ds : Int)) else none
  | ds => if ds ≠ [] ∧ ds.all (·.isDigit) then some ((pyDigitsVal ds : Int)) else none

/-- Lexicographic comparison of character lists by code point, the order the
Python builtin sorted uses on strings. -/
def pyStrLeb : List Char → List Char → Bool
  | [], _ => true
  | _ :: _, [] => false
  | a :: as, b :: bs => if a < b then true else if b < a then false else pyStrLeb as bs

/-- A list of strings is sorted in the Python sense: adjacent elements are in
nondecreasing lexicographic order. -/
def pySorted : List String → Bool
  | [] => true
  | [_] => true
  | a :: b :: rest => pyStrLeb a.data b.data && pySorted (b :: rest)

/-! ## Template selection (paalgs.py, Choose_Refstars.run_pa, lines 315-333) -/

/-- Embeds the template-selection block of Choose_Refstars.run_pa on the sorted
image listing.  Source, with images the sorted directory listing:

  if images[0][:2] != images[1][:2] and images[0][2:6] != '1231':
      template = images[0]
  elif images[0][2:6] == '1231' and int(images[0][:2]) == int(images[1][:2]) - 1:
      template = images[-1]
  else:
      template = images[-1]

A listing with fewer than two entries raises IndexError and a non-numeric
program-year prefix reached by the elif raises ValueError; both are embedded
as none. -/
def choose_template (images : List String) : Option String :=
  match images with
  | i0 :: i1 :: rest =>
    if pySlice i0 0 2 ≠ pySlice i1 0 2 ∧ pySlice i0 2 6 ≠ "1231" then
      some i0
    else if pySlice i0 2 6 = "1231" then
      match pyInt? (pySlice i0 0 2), pyInt? (pySlice i1 0 2) with
      | some y0, some y1 =>
        if y0 = y1 - 1 then some ((i0 :: i1 :: rest).getLast (by simp))
        else some ((i0 :: i1 :: rest).getLast (by simp))
      | _, _ => none
    else
      some ((i0 :: i1 :: rest).getLast (by simp))
  | _ => none

/-! ## Stage contract (pas.PipelineAlg / qas.MonitoringAlg run prologue) -/

/-- Tag for the structural type of the data flowing between stages: the Python
code compares type(args[0]) against the declared input type (HDUList for every
stage in paalgs.py and qaalgs.py). -/
inductive DataKind
  | HDUList
  | Table
  | Other
deriving DecidableEq, Repr

/-- One positional argument of a stage invocation, carrying its DataKind. -/
structure PipelineData where
  kind : DataKind
deriving DecidableEq, Repr

/-- Declared identity of a stage: its name and its declared input and output
data kinds, the arguments every stage constructor passes to the base class. -/
structure PipelineAlg where
  name : String
  inpType : DataKind
  outType : DataKind
deriving DecidableEq, Repr

/-- Modelled from the spec: the stage base classes (pas.PipelineAlg and
qas.MonitoringAlg) are not under src; per the spec, accepts(candidateKind)
returns true iff candidateKind equals the declared input DataKind. -/
def is_compatible (alg : PipelineAlg) (k : DataKind) : Bool :=
  decide (k = alg.inpType)

/-- Failure outcomes of a stage invocation.  sys.exit on a missing positional
argument, sys.exit on an incompatible input (reporting expected and actual
kind), sys.exit on a missing required configuration parameter, and KeyError on
a missing dictionary key. -/
inductive RunError
  | missingInput
  | incompatibleInput (expected actual : DataKind)
  | configurationError (parameter : String)
  | keyError (key : String)
deriving DecidableEq, Repr

/-- Embeds the common prologue shared by every run method in paalgs.py and
qaalgs.py (for example Coaddition.run, lines 93-103, and Count_Pixels.run,
lines 67-79): exit if no positional argument was given, exit with the expected
and actual kinds if the first argument is incompatible, and only then hand the
arguments to the stage-specific body run_pa (whose side effects are abstracted
into an arbitrary continuation). -/
def stage_run {β : Type} (alg : PipelineAlg) (run_pa : List PipelineData → β)
    (args : List PipelineData) : Except RunError β :=
  match args with
  | [] => Except.error RunError.missingInput
  | a0 :: _ =>
    if is_compatible alg a0.kind then Except.ok (run_pa args)
    else Except.error (RunError.incompatibleInput alg.inpType a0.kind)

/-- The Coaddition stage declares HDUList input and output (paalgs.py, 83-91). -/
def Coaddition_alg : PipelineAlg :=
  { name := "Coaddition", inpType := DataKind.HDUList, outType := DataKind.HDUList }

/-- The Find_Data stage declares HDUList input and output (paalgs.py, 16-24). -/
def Find_Data_alg : PipelineAlg :=
  { name := "Find_Data", inpType := DataKind.HDUList, outType := DataKind.HDUList }

/-- The Count_Pixels monitoring stage declares HDUList input (qaalgs.py, 48-66). -/
def Count_Pixels_alg : PipelineAlg :=
  { name := "Count_Pixels", inpType := DataKind.HDUList, outType := DataKind.HDUList }

/-- Keyword arguments consumed by Find_Data.run (paalgs.py, lines 34-48). -/
structure FindDataKwargs where
  Night : Option String
  Program : Option String
  Telescope : Option String
  Field : Option String
  RA : Option ℚ
  DEC : Option ℚ
  TimeBeforeDiscovery : Option ℚ
  TimeAfterDiscovery : Option ℚ
  datadir : Option String
  outdir : Option String
deriving DecidableEq, Repr

/-- Embeds Find_Data.run (paalgs.py, lines 26-50): after the common prologue it
reads Night and exits with a configuration error when Night is None, before any
of the discovery, matching, or copying work of run_pa (abstracted as an
arbitrary continuation) happens. -/
def find_data_run {β : Type}
    (run_pa : Option String → String → Option String → Option String → Option ℚ → Option ℚ →
      Option ℚ → Option ℚ → Option String → Option String → β)
    (args : List PipelineData) (kwargs : FindDataKwargs) : Except RunError β :=
  match args with
  | [] => Except.error RunError.missingInput
  | a0 :: _ =>
    if is_compatible Find_Data_alg a0.kind then
      match kwargs.Night with
      | none => Except.error (RunError.configurationError ("Night"))
      | some night =>
        Except.ok (run_pa kwargs.Program night kwargs.Telescope kwargs.Field kwargs.RA
          kwargs.DEC kwargs.TimeBeforeDiscovery kwargs.TimeAfterDiscovery kwargs.datadir
          kwargs.outdir)
    else Except.error (RunError.incompatibleInput Find_Data_alg.inpType a0.kind)

/-! ## QA severity, parameters, and the Count_Pixels monitoring stage -/

/-- Modelled from the spec: QASeverity (defined in rotseproc/qa/qas.py, which is
not under src) is an ordered enumeration NORMAL < WARNING < ALERT. -/
inductive QASeverity
  | NORMAL
  | WARNING
  | ALERT
deriving DecidableEq, Repr

/-- The recognized keys of the Count_Pixels parameter dictionary: COUNT_REF,
COUNT_NORMAL_RANGE and COUNT_WARN_RANGE are read by run_qa (qaalgs.py,
101-103), NOISE_WARN_RANGE and NOISE_NORMAL_RANGE by the constructor
(qaalgs.py, 62-64).  A missing key is none. -/
structure CountParam where
  COUNT_REF : Option ℚ
  COUNT_NORMAL_RANGE : Option (List ℚ)
  COUNT_WARN_RANGE : Option (List ℚ)
  NOISE_WARN_RANGE : Option (List ℚ)
  NOISE_NORMAL_RANGE : Option (List ℚ)
deriving DecidableEq, Repr

/-- The inputs dictionary assembled by get_inputs (qaalgs.py, lines 19-46):
each recognized keyword defaults to None when absent. -/
structure QAInputs where
  paname : Option String
  flavor : Option String
  program : Option String
  qafile : Option String
  qafig : Option String
  param : Option CountParam
  refmetrics : Option (List (String × ℚ))
deriving DecidableEq, Repr

/-- The METRICS dictionary of the output of run_qa: both entries are
stringified (qaalgs.py, lines 112-113). -/
structure QAMetrics where
  COUNT : String
  COUNT_PER_IMAGE : String
deriving DecidableEq, Repr

/-- The output dictionary retval of Count_Pixels.run_qa (qaalgs.py, 106-113):
exactly the keys PROGRAM, PANAME, PARAMS, STATUS, METRICS. -/
structure QAReport where
  PROGRAM : Option String
  PANAME : Option String
  PARAMS : CountParam
  STATUS : QASeverity
  METRICS : QAMetrics
deriving DecidableEq, Repr

/-- Embeds numpy median on a list of rationals: sort, take the middle element
for odd length, the mean of the two middle elements for even length. -/
def npMedian (xs : List ℚ) : ℚ :=
  let s := xs.insertionSort (· ≤ ·)
  if xs.length % 2 = 1 then s.getD (xs.length / 2) 0
  else if xs.length = 0 then 0
  else (s.getD (xs.length / 2 - 1) 0 + s.getD (xs.length / 2) 0) / 2

/-- Stringification of a rational metric value, abstracting the Python str of
a numpy scalar. -/
def ratStr (q : ℚ) : String :=
  toString q.num ++ "/" ++ toString q.den

/-- Stringification of a per-image collection of rationals, abstracting the
Python str of a numpy array. -/
def ratListStr (qs : List ℚ) : String :=
  "[" ++ String.intercalate (", ") (qs.map ratStr) ++ "]"

/-- Embeds Count_Pixels.run_qa (qaalgs.py, lines 81-119).  The per-image metric
function count_avg_pixels (rotseproc.qa.qalib, out of core scope) and the
classifier check_QA_status (rotseproc.qa.qas, not under src) are abstract
collaborators passed as arguments.  run_qa exits when the param block is None;
otherwise it computes the per-image averages, reduces them to their median,
classifies the median against COUNT_REF and the two configured ranges, and
assembles the output dictionary.  Writing the QA file and the plot are side
effects outside the returned value. -/
def run_qa {Images : Type} (count_avg_pixels : Images → List ℚ)
    (check_QA_status : ℚ → ℚ → List ℚ → List ℚ → QASeverity)
    (images : Images) (inputs : QAInputs) : Except RunError QAReport :=
  match inputs.param with
  | none => Except.error (RunError.configurationError ("param"))
  | some param =>
    let im_count := count_avg_pixels images
    let count := npMedian im_count
    match param.COUNT_REF with
    | none => Except.error (RunError.keyError ("COUNT_REF"))
    | some reference =>
      match param.COUNT_NORMAL_RANGE with
      | none => Except.error (RunError.keyError ("COUNT_NORMAL_RANGE"))
      | some norm_range =>
        match param.COUNT_WARN_RANGE with
        | none => Except.error (RunError.keyError ("COUNT_WARN_RANGE"))
        | some warn_range =>
          let status := check_QA_status count reference norm_range warn_range
          Except.ok
            { PROGRAM := inputs.program
              PANAME := inputs.paname
              PARAMS := param
              STATUS := status
              METRICS :=
                { COUNT := ratStr count
                  COUNT_PER_IMAGE := ratListStr im_count } }

/-- Keyword arguments of the Count_Pixels constructor (qaalgs.py, 49-66):
the kwargs dictionary of the configuration, holding the param block, the
optional refKey and statKey overrides, and the optional ReferenceMetrics
mapping. -/
structure CountPixelsKwargs where
  param : CountParam
  refKey : Option String
  statKey : Option String
  ReferenceMetrics : Option (List (String × ℚ))
deriving DecidableEq, Repr

/-- Embeds the key resolution of the Count_Pixels constructor (qaalgs.py, 54):
refKey when given, the literal NOISE otherwise. -/
def countPixels_resultkey (kwargs : CountPixelsKwargs) : String :=
  kwargs.refKey.getD ("NOISE")

/-- Embeds the REFERENCE recording of the Count_Pixels constructor (qaalgs.py,
58-61): when ReferenceMetrics is given and holds the resolved key, its entry is
stored under REFERENCE; otherwise no REFERENCE entry is created. -/
def countPixels_reference (kwargs : CountPixelsKwargs) : Option ℚ :=
  match kwargs.ReferenceMetrics with
  | none => none
  | some r => r.lookup (countPixels_resultkey kwargs)

/-- Embeds the RANGES construction of the Count_Pixels constructor (qaalgs.py,
62-64): only when both NOISE_WARN_RANGE and NOISE_NORMAL_RANGE are present is
RANGES built, as the warn band followed by the normal band. -/
def countPixels_ranges (parms : CountParam) : Option (List (List ℚ × QASeverity)) :=
  match parms.NOISE_WARN_RANGE, parms.NOISE_NORMAL_RANGE with
  | some w, some n => some [(w, QASeverity.WARNING), (n, QASeverity.NORMAL)]
  | _, _ => none

/-! ## Theorems -/

/-- C1: for every sorted list of at least two image identifiers, if the first
image has month/day 1231 and its program-year prefix, read as an integer, is
exactly one less than that of the second image, then choose_template selects
the latest (last) image of the list. -/
theorem choose_template_year_end_selects_latest
    (i0 i1 : String) (rest : List String)
    (hs : pySorted (i0 :: i1 :: rest) = true)
    (hmd : pySlice i0 2 6 = "1231")
    (y : Int)
    (h0 : pyInt? (pySlice i0 0 2) = some y)
    (h1 : pyInt? (pySlice i1 0 2) = some (y + 1)) :
    choose_template (i0 :: i1 :: rest) = some ((i0 :: i1 :: rest).getLast (by simp)) := by
  simp [choose_template, hmd, h0, h1]

/-- Witness for C1 at the sorted listing of the spec example. -/
theorem choose_template_year_end_selects_latest_witness :
    choose_template [("201231"), ("210101")] = some ("210101") :=
  choose_template_year_end_selects_latest ("201231") ("210101") [] (by decide) (by decide)
    20 (by decide) (by decide)

/-- C2 counterexample: on the sorted listing of the spec example with two images
of the same program-year and no year-end condition, choose_template selects the
latest image, not the earliest one the claim calls for. -/
theorem choose_template_same_prefix_cex :
    choose_template [("200601"), ("200615")] = some ("200615") ∧
      ("200615" : String) ≠ "200601" := by
  constructor
  · decide
  · decide

/-- C2 (amended): the earliest image is selected only when the first two images
have different program-year prefixes and the first image month/day is not 1231;
in every other case in which selection succeeds, including two images with the
same program-year prefix, the latest image is selected. -/
theorem choose_template_selection_cases
    (i0 i1 : String) (rest : List String)
    (hs : pySorted (i0 :: i1 :: rest) = true) :
    (pySlice i0 0 2 ≠ pySlice i1 0 2 → pySlice i0 2 6 ≠ "1231" →
        choose_template (i0 :: i1 :: rest) = some i0) ∧
    (pySlice i0 0 2 = pySlice i1 0 2 → pySlice i0 2 6 ≠ "1231" →
        choose_template (i0 :: i1 :: rest) = some ((i0 :: i1 :: rest).getLast (by simp))) ∧
    (pySlice i0 2 6 = "1231" → ∀ y0 y1 : Int, pyInt? (pySlice i0 0 2) = some y0 →
        pyInt? (pySlice i1 0 2) = some y1 →
        choose_template (i0 :: i1 :: rest) = some ((i0 :: i1 :: rest).getLast (by simp))) := by
  refine ⟨?_, ?_, ?_⟩
  · intro h1 h2
    simp [choose_template, h1, h2]
  · intro h1 h2
    simp [choose_template, h1, h2]
  · intro h1 y0 y1 hy0 hy1
    simp [choose_template, h1, hy0, hy1]

/-- Witness for C2 (amended) at the sorted listing of the spec example. -/
theorem choose_template_selection_cases_witness :
    choose_template [("200601"), ("200615")] =
      some (([("200601"), ("200615")] : List String).getLast (by simp)) :=
  (choose_template_selection_cases ("200601") ("200615") [] (by decide)).2.1
    (by decide) (by decide)

/-- C10: choose_template presupposes at least two images: on a listing with
fewer than two entries it fails rather than selecting a template, and on a
listing of at least two images whose first two program-year prefixes parse as
integers it selects either the first or the last element. -/
theorem choose_template_requires_two_images (images : List String) :
    (images.length < 2 → choose_template images = none) ∧
    (∀ i0 i1 rest, images = i0 :: i1 :: rest →
      (pyInt? (pySlice i0 0 2)).isSome = true → (pyInt? (pySlice i1 0 2)).isSome = true →
      choose_template images = some i0 ∨
        choose_template images = some ((i0 :: i1 :: rest).getLast (by simp))) := by
  constructor
  · intro h
    match images, h with
    | [], _ => rfl
    | [a], _ => rfl
  · rintro i0 i1 rest rfl hy0 hy1
    rcases Option.isSome_iff_exists.mp hy0 with ⟨a0, ha0⟩
    rcases Option.isSome_iff_exists.mp hy1 with ⟨a1, ha1⟩
    by_cases hc1 : pySlice i0 0 2 ≠ pySlice i1 0 2 ∧ pySlice i0 2 6 ≠ "1231"
    · left
      simp [choose_template, hc1]
    · right
      by_cases hc2 : pySlice i0 2 6 = "1231"
      · simp [choose_template, hc1, hc2, ha0, ha1]
      · have heq : pySlice i0 0 2 = pySlice i1 0 2 := by
          by_contra hne
          exact hc1 ⟨hne, hc2⟩
        simp [choose_template, heq, hc2]

/-- Witness for C10: both the short-listing case and the two-image case at
concrete inputs. -/
theorem choose_template_requires_two_images_witness :
    choose_template [("200601")] = none ∧
      (choose_template [("200601"), ("200615")] = some ("200601") ∨
        choose_template [("200601"), ("200615")] =
          some (([("200601"), ("200615")] : List String).getLast (by simp))) :=
  ⟨(choose_template_requires_two_images [("200601")]).1 (by decide),
    (choose_template_requires_two_images [("200601"), ("200615")]).2 ("200601") ("200615") []
      rfl (by decide) (by decide)⟩

/-- C3: for every invocation of run_qa with a parameter block, the value handed
to the severity classifier is the median of the per-image collection, and the
raw per-image collection is still carried into the report as the stringified
COUNT_PER_IMAGE metric. -/
theorem run_qa_classifies_median {Images : Type}
    (count_avg_pixels : Images → List ℚ)
    (check_QA_status : ℚ → ℚ → List ℚ → List ℚ → QASeverity)
    (images : Images) (inputs : QAInputs) (param : CountParam)
    (reference : ℚ) (norm_range warn_range : List ℚ)
    (hp : inputs.param = some param)
    (hr : param.COUNT_REF = some reference)
    (hn : param.COUNT_NORMAL_RANGE = some norm_range)
    (hw : param.COUNT_WARN_RANGE = some warn_range) :
    (run_qa count_avg_pixels check_QA_status images inputs).map QAReport.STATUS =
        Except.ok (check_QA_status (npMedian (count_avg_pixels images)) reference
          norm_range warn_range) ∧
      (run_qa count_avg_pixels check_QA_status images inputs).map
          (fun report => report.METRICS.COUNT_PER_IMAGE) =
        Except.ok (ratListStr (count_avg_pixels images)) := by
  constructor
  · simp [run_qa, hp, hr, hn, hw, Except.map]
  · simp [run_qa, hp, hr, hn, hw, Except.map]

/-- Witness for C3 on a concrete three-image collection. -/
theorem run_qa_classifies_median_witness :
    (run_qa (fun _ : Unit => [(1 : ℚ), 2, 3]) (fun _ _ _ _ => QASeverity.NORMAL) ()
          { paname := none, flavor := none, program := none, qafile := none, qafig := none,
            param := some { COUNT_REF := some 5, COUNT_NORMAL_RANGE := some [],
                            COUNT_WARN_RANGE := some [], NOISE_WARN_RANGE := none,
                            NOISE_NORMAL_RANGE := none },
            refmetrics := none }).map QAReport.STATUS =
        Except.ok QASeverity.NORMAL ∧
      (run_qa (fun _ : Unit => [(1 : ℚ), 2, 3]) (fun _ _ _ _ => QASeverity.NORMAL) ()
          { paname := none, flavor := none, program := none, qafile := none, qafig := none,
            param := some { COUNT_REF := some 5, COUNT_NORMAL_RANGE := some [],
                            COUNT_WARN_RANGE := some [], NOISE_WARN_RANGE := none,
                            NOISE_NORMAL_RANGE := none },
            refmetrics := none }).map (fun report => report.METRICS.COUNT_PER_IMAGE) =
        Except.ok (ratListStr [(1 : ℚ), 2, 3]) :=
  run_qa_classifies_median (fun _ : Unit => [(1 : ℚ), 2, 3])
    (fun _ _ _ _ => QASeverity.NORMAL) () _ _ 5 [] [] rfl rfl rfl rfl

/-- C4 counterexample: an invocation whose reference metrics hold the entry
NOISE mapped to 100 while the parameter block sets COUNT_REF to 5.  The
classifier answers NORMAL exactly when it is given the reference 100, yet the
resulting status is ALERT: classification used COUNT_REF, not the reference
metrics entry, so the claimed preference for context.ReferenceMetrics fails. -/
theorem run_qa_ignores_reference_metrics_cex :
    (run_qa (fun _ : Unit => [(1 : ℚ)])
        (fun _ reference _ _ =>
          if reference = (100 : ℚ) then QASeverity.NORMAL else QASeverity.ALERT)
        ()
        { paname := none, flavor := none, program := none, qafile := none, qafig := none,
          param := some { COUNT_REF := some 5, COUNT_NORMAL_RANGE := some [(0 : ℚ), 10],
                          COUNT_WARN_RANGE := some [(0 : ℚ), 20], NOISE_WARN_RANGE := none,
                          NOISE_NORMAL_RANGE := none },
          refmetrics := some [(("NOISE"), (100 : ℚ))] }).map QAReport.STATUS =
      Except.ok QASeverity.ALERT := by
  rfl

/-- C4 (amended): the constructor records the reference-metrics entry keyed by
the resolved metric key under REFERENCE, but run_qa always classifies against
the statically configured COUNT_REF of the parameter block, even when reference
metrics are supplied. -/
theorem reference_resolution_uses_count_ref {Images : Type}
    (count_avg_pixels : Images → List ℚ)
    (check_QA_status : ℚ → ℚ → List ℚ → List ℚ → QASeverity)
    (images : Images) (inputs : QAInputs) (param : CountParam)
    (refmetricsList : List (String × ℚ))
    (reference : ℚ) (norm_range warn_range : List ℚ)
    (hm : inputs.refmetrics = some refmetricsList)
    (hp : inputs.param = some param)
    (hr : param.COUNT_REF = some reference)
    (hn : param.COUNT_NORMAL_RANGE = some norm_range)
    (hw : param.COUNT_WARN_RANGE = some warn_range) :
    (∀ kwargs : CountPixelsKwargs, ∀ r v, kwargs.ReferenceMetrics = some r →
        r.lookup (countPixels_resultkey kwargs) = some v →
        countPixels_reference kwargs = some v) ∧
      (run_qa count_avg_pixels check_QA_status images inputs).map QAReport.STATUS =
        Except.ok (check_QA_status (npMedian (count_avg_pixels images)) reference
          norm_range warn_range) := by
  constructor
  · intro kwargs r v hR hl
    simp [countPixels_reference, hR, hl]
  · simp [run_qa, hp, hr, hn, hw, Except.map]

/-- Witness for C4 (amended) at the concrete input of the counterexample. -/
theorem reference_resolution_uses_count_ref_witness :
    (∀ kwargs : CountPixelsKwargs, ∀ r v, kwargs.ReferenceMetrics = some r →
        r.lookup (countPixels_resultkey kwargs) = some v →
        countPixels_reference kwargs = some v) ∧
      (run_qa (fun _ : Unit => [(1 : ℚ)])
          (fun _ reference _ _ =>
            if reference = (100 : ℚ) then QASeverity.NORMAL else QASeverity.ALERT)
          ()
          { paname := none, flavor := none, program := none, qafile := none, qafig := none,
            param := some { COUNT_REF := some 5, COUNT_NORMAL_RANGE := some [(0 : ℚ), 10],
                            COUNT_WARN_RANGE := some [(0 : ℚ), 20], NOISE_WARN_RANGE := none,
                            NOISE_NORMAL_RANGE := none },
            refmetrics := some [(("NOISE"), (100 : ℚ))] }).map QAReport.STATUS =
        Except.ok ((fun _ reference _ _ =>
            if reference = (100 : ℚ) then QASeverity.NORMAL else QASeverity.ALERT)
          (npMedian [(1 : ℚ)]) (5 : ℚ) [(0 : ℚ), 10] [(0 : ℚ), 20]) :=
  reference_resolution_uses_count_ref (fun _ : Unit => [(1 : ℚ)])
    (fun _ reference _ _ =>
      if reference = (100 : ℚ) then QASeverity.NORMAL else QASeverity.ALERT)
    () _ _ [(("NOISE"), (100 : ℚ))] 5 [(0 : ℚ), 10] [(0 : ℚ), 20] rfl rfl rfl rfl rfl

/-- C5: a run_qa invocation without a parameter block fails with a
configuration error and produces no report. -/
theorem run_qa_missing_param_fails {Images : Type}
    (count_avg_pixels : Images → List ℚ)
    (check_QA_status : ℚ → ℚ → List ℚ → List ℚ → QASeverity)
    (images : Images) (inputs : QAInputs)
    (hp : inputs.param = none) :
    run_qa count_avg_pixels check_QA_status images inputs =
      Except.error (RunError.configurationError ("param")) := by
  simp [run_qa, hp]

/-- Witness for C5 at a concrete parameterless invocation. -/
theorem run_qa_missing_param_fails_witness :
    run_qa (fun _ : Unit => [(1 : ℚ)]) (fun _ _ _ _ => QASeverity.NORMAL) ()
        { paname := none, flavor := none, program := none, qafile := none, qafig := none,
          param := none, refmetrics := none } =
      Except.error (RunError.configurationError ("param")) :=
  run_qa_missing_param_fails (fun _ : Unit => [(1 : ℚ)]) (fun _ _ _ _ => QASeverity.NORMAL)
    () _ rfl

/-- C6: every stage invoked with a first positional input of the wrong data
kind fails with an incompatible-input error carrying both the expected and the
actual kind, and the result is the same for every possible stage body run_pa,
so the failure precedes every side effect of the stage transformation. -/
theorem stage_run_incompatible_input {β : Type} (alg : PipelineAlg)
    (run_pa : List PipelineData → β) (a0 : PipelineData) (rest : List PipelineData)
    (h : a0.kind ≠ alg.inpType) :
    stage_run alg run_pa (a0 :: rest) =
      Except.error (RunError.incompatibleInput alg.inpType a0.kind) := by
  simp [stage_run, is_compatible, h]

/-- Witness for C6: the Coaddition stage rejects a Table input. -/
theorem stage_run_incompatible_input_witness :
    stage_run Coaddition_alg (fun _ => (0 : Nat)) [{ kind := DataKind.Table }] =
      Except.error (RunError.incompatibleInput DataKind.HDUList DataKind.Table) :=
  stage_run_incompatible_input Coaddition_alg (fun _ => (0 : Nat))
    { kind := DataKind.Table } [] (by decide)

/-- C7: a Find_Data invocation that passes the input-compatibility gate but has
no Night keyword fails with a configuration error naming Night, and the result
is the same for every possible discovery body run_pa, so no data is located,
matched, or copied. -/
theorem find_data_run_missing_night {β : Type}
    (run_pa : Option String → String → Option String → Option String → Option ℚ → Option ℚ →
      Option ℚ → Option ℚ → Option String → Option String → β)
    (a0 : PipelineData) (rest : List PipelineData) (kwargs : FindDataKwargs)
    (hk : a0.kind = Find_Data_alg.inpType)
    (hn : kwargs.Night = none) :
    find_data_run run_pa (a0 :: rest) kwargs =
      Except.error (RunError.configurationError ("Night")) := by
  simp [find_data_run, is_compatible, hk, hn]

/-- Witness for C7 at a concrete invocation with every keyword absent. -/
theorem find_data_run_missing_night_witness :
    find_data_run (fun _ _ _ _ _ _ _ _ _ _ => (0 : Nat)) [{ kind := DataKind.HDUList }]
        { Night := none, Program := none, Telescope := none, Field := none, RA := none,
          DEC := none, TimeBeforeDiscovery := none, TimeAfterDiscovery := none,
          datadir := none, outdir := none } =
      Except.error (RunError.configurationError ("Night")) :=
  find_data_run_missing_night (fun _ _ _ _ _ _ _ _ _ _ => (0 : Nat))
    { kind := DataKind.HDUList } [] _ rfl rfl

/-- C8: every successful run_qa invocation returns exactly the report holding
the program, the processing-algorithm name, the parameter block used, the
computed severity status, and the metric mapping with both the stringified
aggregate median and the stringified per-image collection. -/
theorem run_qa_report_contents {Images : Type}
    (count_avg_pixels : Images → List ℚ)
    (check_QA_status : ℚ → ℚ → List ℚ → List ℚ → QASeverity)
    (images : Images) (inputs : QAInputs) (param : CountParam)
    (reference : ℚ) (norm_range warn_range : List ℚ)
    (hp : inputs.param = some param)
    (hr : param.COUNT_REF = some reference)
    (hn : param.COUNT_NORMAL_RANGE = some norm_range)
    (hw : param.COUNT_WARN_RANGE = some warn_range) :
    run_qa count_avg_pixels check_QA_status images inputs =
      Except.ok
        { PROGRAM := inputs.program
          PANAME := inputs.paname
          PARAMS := param
          STATUS := check_QA_status (npMedian (count_avg_pixels images)) reference
            norm_range warn_range
          METRICS :=
            { COUNT := ratStr (npMedian (count_avg_pixels images))
              COUNT_PER_IMAGE := ratListStr (count_avg_pixels images) } } := by
  simp [run_qa, hp, hr, hn, hw]

/-- Witness for C8 at a concrete successful invocation. -/
theorem run_qa_report_contents_witness :
    run_qa (fun _ : Unit => [(1 : ℚ), 2, 3]) (fun _ _ _ _ => QASeverity.NORMAL) ()
        { paname := some ("Coaddition"), flavor := none, program := some ("supernova"),
          qafile := none, qafig := none,
          param := some { COUNT_REF := some 5, COUNT_NORMAL_RANGE := some [],
                          COUNT_WARN_RANGE := some [], NOISE_WARN_RANGE := none,
                          NOISE_NORMAL_RANGE := none },
          refmetrics := none } =
      Except.ok
        { PROGRAM := some ("supernova")
          PANAME := some ("Coaddition")
          PARAMS := { COUNT_REF := some 5, COUNT_NORMAL_RANGE := some [],
                      COUNT_WARN_RANGE := some [], NOISE_WARN_RANGE := none,
                      NOISE_NORMAL_RANGE := none }
          STATUS := QASeverity.NORMAL
          METRICS :=
            { COUNT := ratStr (npMedian [(1 : ℚ), 2, 3])
              COUNT_PER_IMAGE := ratListStr [(1 : ℚ), 2, 3] } } :=
  run_qa_report_contents (fun _ : Unit => [(1 : ℚ), 2, 3]) (fun _ _ _ _ => QASeverity.NORMAL)
    () _ _ 5 [] [] rfl rfl rfl rfl

/-- C9: whenever both the warn range and the normal range are configured, the
constructed band list places the warning band strictly before the normal band,
and whenever either range is missing no band list is constructed. -/
theorem countPixels_ranges_order (parms : CountParam) :
    (∀ w n, parms.NOISE_WARN_RANGE = some w → parms.NOISE_NORMAL_RANGE = some n →
        countPixels_ranges parms = some [(w, QASeverity.WARNING), (n, QASeverity.NORMAL)]) ∧
    ((parms.NOISE_WARN_RANGE = none ∨ parms.NOISE_NORMAL_RANGE = none) →
        countPixels_ranges parms = none) := by
  constructor
  · intro w n hw hn
    simp [countPixels_ranges, hw, hn]
  · intro h
    rcases h with h | h
    · cases hN : parms.NOISE_NORMAL_RANGE <;> simp [countPixels_ranges, h, hN]
    · cases hW : parms.NOISE_WARN_RANGE <;> simp [countPixels_ranges, h, hW]

/-- Witness for C9: both conjuncts at concrete parameter blocks. -/
theorem countPixels_ranges_order_witness :
    countPixels_ranges
        { COUNT_REF := none, COUNT_NORMAL_RANGE := none, COUNT_WARN_RANGE := none,
          NOISE_WARN_RANGE := some [(0 : ℚ), 5], NOISE_NORMAL_RANGE := some [(5 : ℚ), 10] } =
      some [([(0 : ℚ), 5], QASeverity.WARNING), ([(5 : ℚ), 10], QASeverity.NORMAL)] ∧
    countPixels_ranges
        { COUNT_REF := none, COUNT_NORMAL_RANGE := none, COUNT_WARN_RANGE := none,
          NOISE_WARN_RANGE := none, NOISE_NORMAL_RANGE := some [(5 : ℚ), 10] } =
      none :=
  ⟨(countPixels_ranges_order _).1 [(0 : ℚ), 5] [(5 : ℚ), 10] rfl rfl,
    (countPixels_ranges_order _).2 (Or.inl rfl)⟩
